import Mathlib

/-!
Verification development for `snap-sync-cleanup.py`, a script that enforces a
retention policy over numbered backup snapshot directories.  The Python source
is shallowly embedded: pure parsing helpers become Lean functions, filesystem
and subprocess effects become explicit parameters (directory listings, process
return codes, deletion outcomes), and the `__main__` retention loop becomes a
structurally recursive function over the sorted snapshot list carrying an
explicit state record.
-/

set_option autoImplicit false

namespace SnapSyncCleanup

/-! ## Path model

The script manipulates `pathlib.PosixPath` values.  A pure POSIX path is
modelled as an absoluteness flag plus the list of name components; `pathlib`
drops empty components and `.` components when parsing a string, keeps `..`
components, and compares paths structurally on this normal form. -/

/-- Model of a `pathlib.PosixPath` value: whether the path is absolute, and
its name components (no empty components, `.` dropped, `..` kept). -/
structure PosixPath where
  absolute : Bool
  components : List String
deriving DecidableEq, Repr

/-- The filesystem root `PosixPath("/")`. -/
def rootPath : PosixPath := ⟨true, []⟩

/-- Split a character list into the groups separated by `/`. -/
def splitOnSlash : List Char → List (List Char)
  | [] => [[]]
  | '/' :: rest => [] :: splitOnSlash rest
  | c :: rest =>
    match splitOnSlash rest with
    | [] => [[c]]
    | g :: gs => (c :: g) :: gs

/-- Parse a string into a path the way `pathlib` does: absolute iff the string
starts with `/`; empty and `.` components are dropped. -/
def parsePosix (s : String) : PosixPath :=
  let cs := s.toList
  ⟨(match cs with | '/' :: _ => true | _ => false),
   ((splitOnSlash cs).map (fun g => (⟨g⟩ : String))).filter
     (fun c => !(c == "" || c == "."))⟩

/-- Combine two path arguments as `PosixPath(a, b)` does: if the second is
absolute it replaces the first, otherwise the components are appended. -/
def PosixPath.combine (p q : PosixPath) : PosixPath :=
  if q.absolute then q else ⟨p.absolute, p.components ++ q.components⟩

/-- Model of `path.joinpath(name)` for a single relative name component (the
only form used by the script: `root / childName` and `path / "subvolume"`). -/
def PosixPath.joinpath (p : PosixPath) (name : String) : PosixPath :=
  ⟨p.absolute, p.components ++ [name]⟩

/-- Model of `path.absolute()`: prepend the current working directory when the
path is relative; no normalisation is performed (as in `pathlib`). -/
def PosixPath.absolutize (cwd p : PosixPath) : PosixPath :=
  if p.absolute then p else ⟨cwd.absolute, cwd.components ++ p.components⟩

/-- Render a path back to its string form, used when the path is interpolated
into an external command line. -/
def PosixPath.toStr (p : PosixPath) : String :=
  (if p.absolute then "/" else "") ++ String.intercalate "/" p.components

/-- Follows the claim wording for C8 only: resolution of a path to an absolute
canonical form, i.e. eliminating `..` components the way the operating system
would (a `..` at the root stays at the root).  The source code never performs
such a resolution; this definition exists to compare the claim against the
code. -/
def resolveCanonical (p : PosixPath) : PosixPath :=
  ⟨p.absolute,
   p.components.foldl
     (fun acc c => if c = ".." then acc.dropLast else acc ++ [c]) []⟩

/-! ## Python `int()` parsing

`get_latest_snapshot_num` and `get_snapshots` both rely on Python `int(s)`,
which strips surrounding whitespace, accepts an optional `+`/`-` sign, and
then requires a non-empty ASCII digit string in which single underscores may
appear between digits. -/

/-- Accepts the tail of a Python integer digit string: digits, with each
underscore immediately followed (and preceded) by a digit. -/
def pyDigitsAux : List Char → Bool
  | [] => true
  | '_' :: c :: rest => c.isDigit && pyDigitsAux rest
  | '_' :: [] => false
  | c :: rest => c.isDigit && pyDigitsAux rest

/-- Accepts a full Python integer digit string (non-empty, starts with a
digit, underscores only between digits). -/
def pyDigits : List Char → Bool
  | [] => false
  | c :: rest => c.isDigit && pyDigitsAux rest

/-- Numeric value of a list of ASCII digits (underscores already removed). -/
def natOfDigits (cs : List Char) : Nat :=
  cs.foldl (fun acc c => acc * 10 + (c.toNat - 48)) 0

/-- Model of Python `int(s)` restricted to ASCII: strip whitespace, read an
optional sign, then a digit string with optional grouping underscores.
Returns `none` exactly when Python raises `ValueError`. -/
def pyIntParse (s : String) : Option Int :=
  let cs := (s.toList.dropWhile Char.isWhitespace).reverse.dropWhile
    Char.isWhitespace |>.reverse
  let signBody : Int × List Char :=
    match cs with
    | '-' :: rest => (-1, rest)
    | '+' :: rest => (1, rest)
    | _ => (1, cs)
  if pyDigits signBody.2 then
    some (signBody.1 * (natOfDigits (signBody.2.filter (fun c => c ≠ '_')) : Int))
  else
    none

/-! ## Latest-marker resolver (`get_latest_snapshot_num`)

The subprocess invocation and its fatal non-zero-exit path are external; the
parsing loop is embedded over the list of stdout lines.  The source iterates
`reversed(snapper_stdout.splitlines())`; on a line containing the marker text
it tries `int(line.split(" ")[0])`, returning on success and — via
`except: pass` — falling through to the next (earlier) line on failure. -/

/-- The literal marker text the source searches for. -/
def markerText : String := "latest incremental backup"

/-- Model of `line.split(" ")[0]`: everything up to the first space. -/
def firstToken (line : String) : String :=
  ⟨line.toList.takeWhile (fun c => c ≠ ' ')⟩

/-- Whether a character list starts with another character list. -/
def startsWithChars : List Char → List Char → Bool
  | [], _ => true
  | _ :: _, [] => false
  | a :: as, b :: bs => a == b && startsWithChars as bs

/-- Whether a character list occurs contiguously inside another. -/
def hasInfixChars : List Char → List Char → Bool
  | needle, [] => startsWithChars needle []
  | needle, c :: rest =>
    startsWithChars needle (c :: rest) || hasInfixChars needle rest

/-- Whether a line contains the marker text, as Python `in` on strings. -/
def containsMarker (line : String) : Bool :=
  hasInfixChars markerText.toList line.toList

/-- The per-line loop body of `get_latest_snapshot_num`, over lines already
reversed: skip lines without the marker; on a marker line try to parse the
first token, returning it on success and continuing on failure. -/
def scanLines : List String → Option Int
  | [] => none
  | line :: rest =>
    if containsMarker line then
      match pyIntParse (firstToken line) with
      | some n => some n
      | none => scanLines rest
    else
      scanLines rest

/-- Model of `get_latest_snapshot_num` given the stdout of the listing tool,
already split into lines (the tool invocation itself is external). -/
def get_latest_snapshot_num (stdoutLines : List String) : Option Int :=
  scanLines stdoutLines.reverse

example : pyIntParse "7" = some 7 := by decide
example : pyIntParse " -13 " = some (-13) := by decide
example : pyIntParse "1_0" = some 10 := by decide
example : pyIntParse "1__0" = none := by decide
example : pyIntParse "abc" = none := by decide
example : pyIntParse "" = none := by decide
example : firstToken "12 latest incremental backup" = "12" := by decide
example : containsMarker "12  latest incremental backup" = true := by decide
example : containsMarker "12  ordinary snapshot" = false := by decide
example :
    get_latest_snapshot_num
      ["3 latest incremental backup", "9 other", "7 latest incremental backup"]
      = some 7 := by decide
example :
    get_latest_snapshot_num
      ["7 latest incremental backup", "x latest incremental backup"]
      = some 7 := by decide
example : get_latest_snapshot_num ["1 other"] = none := by decide

/-! ## Snapshot locator (`get_snapshot_root_path`) and enumerator
(`get_snapshots`)

The locator builds `PosixPath(remote, config).absolute()`; its subsequent
existence check either leaves the path unchanged or exits the process, so the
embedded function returns the computed path (the current working directory,
supplied by the operating system, is a parameter).  The enumerator iterates
the directory children; each child is a name together with the result of
`child.is_dir()`. -/

/-- Model of `get_snapshot_root_path(remote, config)`: the returned path value
(the fatal existence/directory check only exits and never alters the path). -/
def get_snapshot_root_path (remote config : String) (cwd : PosixPath) :
    PosixPath :=
  PosixPath.absolutize cwd ((parsePosix remote).combine (parsePosix config))

/-- A directory entry as seen by `path.iterdir()`: the name of the child and
whether `child.is_dir()` holds. -/
structure DirEntry where
  name : String
  isDir : Bool
deriving DecidableEq, Repr

/-- Model of `get_snapshots(path)` over the listing of `path.iterdir()`:
keep the children that are directories and whose name parses under Python
`int`, emitting the parsed number with the child path, in iteration order. -/
def get_snapshots (path : PosixPath) (children : List DirEntry) :
    List (Int × PosixPath) :=
  children.filterMap fun child =>
    if child.isDir then
      (pyIntParse child.name).map fun num => (num, path.joinpath child.name)
    else
      none

/-! ## Snapshot deleter (`delete_snapshot`)

The two external effects — the volume-removal subprocess and
`shutil.rmtree` — are parameters: the subprocess outcome is its return code
(its `stdout`/`stderr` are `None` because `capture_output` is not requested),
and the `rmtree` outcome is an optional raised error.  Python exceptions are
modelled with `Except`: an uncaught exception escapes the function. -/

/-- Python exceptions that the embedded fragments can raise. -/
inductive PyError
  | assertionError
  | attributeError
deriving DecidableEq, Repr

/-- Result of `subprocess.run`: the return code, and the captured streams,
which are `none` unless `capture_output=True` was passed. -/
structure CompletedProcess where
  returncode : Int
  stdout : Option String
  stderr : Option String
deriving DecidableEq, Repr

/-- Model of `log_external_output(stdout, stderr)` for string-or-`None`
arguments: it calls `.strip()` on both, so a `None` argument raises
`AttributeError`; otherwise it only logs. -/
def log_external_output (stdout stderr : Option String) :
    Except PyError Unit :=
  match stdout with
  | none => Except.error PyError.attributeError
  | some _ =>
    match stderr with
    | none => Except.error PyError.attributeError
    | some _ => Except.ok ()

/-- Decidable equality for `Except` outcomes of embedded Python fragments. -/
instance {ε α : Type} [DecidableEq ε] [DecidableEq α] :
    DecidableEq (Except ε α) := fun a b =>
  match a, b with
  | Except.error e, Except.error f =>
    if h : e = f then Decidable.isTrue (by rw [h])
    else Decidable.isFalse (by intro hab; cases hab; exact h rfl)
  | Except.error _, Except.ok _ =>
    Decidable.isFalse (by intro hab; cases hab)
  | Except.ok _, Except.error _ =>
    Decidable.isFalse (by intro hab; cases hab)
  | Except.ok x, Except.ok y =>
    if h : x = y then Decidable.isTrue (by rw [h])
    else Decidable.isFalse (by intro hab; cases hab; exact h rfl)

/-- Outcome of a `delete_snapshot` call: the returned boolean or escaped
exception, the external command line issued for the volume removal (empty if
not reached), and whether each stage ran. -/
structure DeleteResult where
  result : Except PyError Bool
  command : List String
  volumeStageRun : Bool
  rmtreeAttempted : Bool
deriving DecidableEq, Repr

/-- Model of `delete_snapshot(path)`.  `volRC` is the return code of the
volume-removal subprocess and `rmtreeErr` the error raised by
`shutil.rmtree`, if any.  The source asserts absoluteness, runs
`subprocess.run(["btrfs subvolume delete", subvolume_path])` (a single-string
argv element, and without `capture_output`), and on a non-zero return code
logs and calls `log_external_output` on the uncaptured (`None`) streams
before it could `return False`. -/
def delete_snapshot (path : PosixPath) (volRC : Int)
    (rmtreeErr : Option String) : DeleteResult :=
  if ¬ path.absolute then
    { result := Except.error PyError.assertionError
      command := []
      volumeStageRun := false
      rmtreeAttempted := false }
  else
    let subvolume_path := path.joinpath "subvolume"
    let cmd := ["btrfs subvolume delete", subvolume_path.toStr]
    let delete_result : CompletedProcess :=
      { returncode := volRC, stdout := none, stderr := none }
    if delete_result.returncode ≠ 0 then
      match log_external_output delete_result.stdout delete_result.stderr with
      | Except.error e =>
        { result := Except.error e
          command := cmd
          volumeStageRun := true
          rmtreeAttempted := false }
      | Except.ok _ =>
        { result := Except.ok false
          command := cmd
          volumeStageRun := true
          rmtreeAttempted := false }
    else
      match rmtreeErr with
      | some _ =>
        { result := Except.ok false
          command := cmd
          volumeStageRun := true
          rmtreeAttempted := true }
      | none =>
        { result := Except.ok true
          command := cmd
          volumeStageRun := true
          rmtreeAttempted := true }

/-! ## Retention engine (the `__main__` loop)

The loop state records the counters of the source and, for the statements of
the claims, the traces of what the loop did: which snapshots the `for` body
examined past the break check, which were skipped and why, which reached the
`delete_snapshot` call, and which deletions succeeded.  The outcome of each
`delete_snapshot` call is abstracted to the boolean it returns, supplied by
an oracle `f`. -/

/-- State of the retention loop, extended with traces of its decisions. -/
structure RunState where
  visited : List (Int × PosixPath)
  skippedLatest : List (Int × PosixPath)
  skippedRoot : List (Int × PosixPath)
  attempted : List (Int × PosixPath)
  deleted : List (Int × PosixPath)
  delete_count : Nat
  delete_attempts : Nat
deriving DecidableEq, Repr

/-- The loop state before the first iteration: both counters zero. -/
def initState : RunState :=
  ⟨[], [], [], [], [], 0, 0⟩

/-- Model of the `for (num, path) in snapshots` loop body.  `total` is
`len(snapshots)`, fixed before the loop.  Faithful to the source order:
break when `len(snapshots) - delete_attempts <= max_keep`; skip the latest
backup when `max_keep > 0`; skip a path equal to `PosixPath("/")`; otherwise
set `delete_attempts = 0` and call the deleter, incrementing `delete_count`
on success. -/
def retentionLoop (total : Nat) (latest : Option Int) (maxKeep : Int)
    (f : Int × PosixPath → Bool) :
    RunState → List (Int × PosixPath) → RunState
  | s, [] => s
  | s, (num, path) :: rest =>
    if (total : Int) - (s.delete_attempts : Int) ≤ maxKeep then
      s
    else
      let s1 : RunState := { s with visited := s.visited ++ [(num, path)] }
      if latest = some num ∧ 0 < maxKeep then
        retentionLoop total latest maxKeep f
          { s1 with skippedLatest := s1.skippedLatest ++ [(num, path)] } rest
      else if path = rootPath then
        retentionLoop total latest maxKeep f
          { s1 with skippedRoot := s1.skippedRoot ++ [(num, path)] } rest
      else
        let s2 : RunState :=
          { s1 with
            delete_attempts := 0
            attempted := s1.attempted ++ [(num, path)] }
        if f (num, path) then
          retentionLoop total latest maxKeep f
            { s2 with
              deleted := s2.deleted ++ [(num, path)]
              delete_count := s2.delete_count + 1 } rest
        else
          retentionLoop total latest maxKeep f s2 rest

/-- Stable insertion of a snapshot into a list sorted ascending by number. -/
def insertByNum (x : Int × PosixPath) :
    List (Int × PosixPath) → List (Int × PosixPath)
  | [] => [x]
  | y :: ys =>
    if x.1 ≤ y.1 then x :: y :: ys else y :: insertByNum x ys

/-- Stable ascending sort by snapshot number, modelling
`snapshots.sort(key=lambda x: x[0])`. -/
def sortByNum (l : List (Int × PosixPath)) : List (Int × PosixPath) :=
  l.foldr insertByNum []

/-- Model of the retention portion of `__main__`: sort the snapshots by
number and run the loop from the initial state, with `total` the number of
discovered snapshots. -/
def runRetention (snapshots : List (Int × PosixPath)) (latest : Option Int)
    (maxKeep : Int) (f : Int × PosixPath → Bool) : RunState :=
  retentionLoop snapshots.length latest maxKeep f initState
    (sortByNum snapshots)

/-- The final exit check of `__main__`: the process exits non-zero iff
`delete_attempts > delete_count` after the loop. -/
def exitNonZero (s : RunState) : Bool :=
  s.delete_count < s.delete_attempts

/-- Follows the claim wording for C4 only: the same loop but breaking when
`remainingCount - delete_attempts <= max_keep`, where `remainingCount` is the
count of snapshots not yet visited in the iteration (the current element
included).  The source instead uses the constant `len(snapshots)`. -/
def retentionLoopClaimC4 (latest : Option Int) (maxKeep : Int)
    (f : Int × PosixPath → Bool) :
    RunState → List (Int × PosixPath) → RunState
  | s, [] => s
  | s, (num, path) :: rest =>
    if (((num, path) :: rest).length : Int) - (s.delete_attempts : Int)
        ≤ maxKeep then
      s
    else
      let s1 : RunState := { s with visited := s.visited ++ [(num, path)] }
      if latest = some num ∧ 0 < maxKeep then
        retentionLoopClaimC4 latest maxKeep f
          { s1 with skippedLatest := s1.skippedLatest ++ [(num, path)] } rest
      else if path = rootPath then
        retentionLoopClaimC4 latest maxKeep f
          { s1 with skippedRoot := s1.skippedRoot ++ [(num, path)] } rest
      else
        let s2 : RunState :=
          { s1 with
            delete_attempts := 0
            attempted := s1.attempted ++ [(num, path)] }
        if f (num, path) then
          retentionLoopClaimC4 latest maxKeep f
            { s2 with
              deleted := s2.deleted ++ [(num, path)]
              delete_count := s2.delete_count + 1 } rest
        else
          retentionLoopClaimC4 latest maxKeep f s2 rest

/-- Follows the claim wording for C4 only: full run with the
not-yet-visited-count break condition. -/
def runRetentionClaimC4 (snapshots : List (Int × PosixPath))
    (latest : Option Int) (maxKeep : Int) (f : Int × PosixPath → Bool) :
    RunState :=
  retentionLoopClaimC4 latest maxKeep f initState (sortByNum snapshots)

/-- Example snapshot root used in concrete runs. -/
def exRoot : PosixPath := ⟨true, ["backups", "cfg"]⟩

/-- Shorthand for a numbered example snapshot under `exRoot`. -/
def exSnap (n : Int) : Int × PosixPath :=
  (n, exRoot.joinpath (toString n))

example :
    (runRetention [exSnap 1, exSnap 2, exSnap 3, exSnap 4, exSnap 5]
      (some 5) 2 (fun _ => true)).deleted.map Prod.fst
      = [1, 2, 3, 4] := by decide
example :
    (runRetention [exSnap 1, exSnap 2, exSnap 3] none 2
      (fun _ => true)).attempted.map Prod.fst = [1, 2, 3] := by decide
example :
    (runRetentionClaimC4 [exSnap 1, exSnap 2, exSnap 3] none 2
      (fun _ => true)).attempted.map Prod.fst = [1] := by decide
example :
    (runRetention [exSnap 1] none 0 (fun _ => false)).delete_attempts
      = 0 := by decide
example :
    get_snapshots exRoot [⟨"-1", true⟩, ⟨"x", true⟩, ⟨"4", false⟩, ⟨"7", true⟩]
      = [(-1, exRoot.joinpath "-1"), (7, exRoot.joinpath "7")] := by decide
example :
    (get_snapshot_root_path "/backups" "cfg" ⟨true, ["home"]⟩) = exRoot := by
  decide
example : resolveCanonical ⟨true, [".."]⟩ = rootPath := by decide
example :
    delete_snapshot exRoot 1 none
      = { result := Except.error PyError.attributeError
          command := ["btrfs subvolume delete", "/backups/cfg/subvolume"]
          volumeStageRun := true
          rmtreeAttempted := false } := by decide

/-! ## Loop invariant lemmas -/

/-- The `delete_attempts` counter stays `0` through the loop: it is only ever
assigned `0`, never incremented. -/
theorem retentionLoop_attempts_zero (total : Nat) (latest : Option Int)
    (maxKeep : Int) (f : Int × PosixPath → Bool)
    (rest : List (Int × PosixPath)) :
    ∀ s : RunState, s.delete_attempts = 0 →
      (retentionLoop total latest maxKeep f s rest).delete_attempts = 0 := by
  induction rest with
  | nil => intro s hs; exact hs
  | cons y rest ih =>
    intro s hs
    obtain ⟨num, path⟩ := y
    simp only [retentionLoop]
    split
    · exact hs
    · split
      · exact ih _ hs
      · split
        · exact ih _ hs
        · split
          · exact ih _ rfl
          · exact ih _ rfl

/-- The list of visited snapshots never shrinks as the loop runs. -/
theorem retentionLoop_visited_le (total : Nat) (latest : Option Int)
    (maxKeep : Int) (f : Int × PosixPath → Bool)
    (rest : List (Int × PosixPath)) :
    ∀ s : RunState,
      s.visited.length
        ≤ (retentionLoop total latest maxKeep f s rest).visited.length := by
  induction rest with
  | nil => intro s; exact Nat.le_refl _
  | cons y rest ih =>
    intro s
    obtain ⟨num, path⟩ := y
    simp only [retentionLoop]
    split
    · exact Nat.le_refl _
    · split
      · exact le_trans (by simp) (ih _)
      · split
        · exact le_trans (by simp) (ih _)
        · split
          · exact le_trans (by simp) (ih _)
          · exact le_trans (by simp) (ih _)

/-- With `maxKeep = 0` the latest-marker guard is inert: running the loop
with any marker equals running it with no marker. -/
theorem retentionLoop_zero_keep_latest_irrelevant (total : Nat) (L : Int)
    (f : Int × PosixPath → Bool) (rest : List (Int × PosixPath)) :
    ∀ s : RunState,
      retentionLoop total (some L) 0 f s rest
        = retentionLoop total none 0 f s rest := by
  induction rest with
  | nil => intro s; rfl
  | cons y rest ih =>
    intro s
    obtain ⟨num, path⟩ := y
    simp only [retentionLoop, lt_self_iff_false, and_false, if_false]
    split
    · rfl
    · split
      · exact ih _
      · split
        · exact ih _
        · exact ih _

/-- When `0 < maxKeep`, no snapshot numbered like the latest marker is ever
added to the deleted list. -/
theorem retentionLoop_deleted_ne_latest (total : Nat) (L : Int)
    (maxKeep : Int) (f : Int × PosixPath → Bool) (hK : 0 < maxKeep)
    (rest : List (Int × PosixPath)) :
    ∀ s : RunState, (∀ x ∈ s.deleted, x.1 ≠ L) →
      ∀ x ∈ (retentionLoop total (some L) maxKeep f s rest).deleted,
        x.1 ≠ L := by
  induction rest with
  | nil => intro s hs; exact hs
  | cons y rest ih =>
    intro s hs
    obtain ⟨num, path⟩ := y
    simp only [retentionLoop]
    split
    · exact hs
    · split
      · exact ih _ hs
      · next hglatest =>
        have hnum : num ≠ L := by
          intro hnl
          exact hglatest ⟨by rw [hnl], hK⟩
        split
        · exact ih _ hs
        · split
          · refine ih _ ?_
            intro x hx
            rcases List.mem_append.mp hx with hx | hx
            · exact hs x hx
            · rcases List.mem_singleton.mp hx with rfl
              exact hnum
          · exact ih _ hs

/-- No snapshot whose path equals the root path ever reaches the deleter
call. -/
theorem retentionLoop_attempted_ne_root (total : Nat) (latest : Option Int)
    (maxKeep : Int) (f : Int × PosixPath → Bool)
    (rest : List (Int × PosixPath)) :
    ∀ s : RunState, (∀ x ∈ s.attempted, x.2 ≠ rootPath) →
      ∀ x ∈ (retentionLoop total latest maxKeep f s rest).attempted,
        x.2 ≠ rootPath := by
  induction rest with
  | nil => intro s hs; exact hs
  | cons y rest ih =>
    intro s hs
    obtain ⟨num, path⟩ := y
    simp only [retentionLoop]
    split
    · exact hs
    · split
      · exact ih _ hs
      · split
        · exact ih _ hs
        · next hgroot =>
          have hstep : ∀ x ∈ s.attempted ++ [(num, path)], x.2 ≠ rootPath := by
            intro x hx
            rcases List.mem_append.mp hx with hx | hx
            · exact hs x hx
            · rcases List.mem_singleton.mp hx with rfl
              exact hgroot
          split
          · exact ih _ hstep
          · exact ih _ hstep

/-- Every snapshot recorded as skipped-for-root-path indeed has the root
path. -/
theorem retentionLoop_skippedRoot_is_root (total : Nat) (latest : Option Int)
    (maxKeep : Int) (f : Int × PosixPath → Bool)
    (rest : List (Int × PosixPath)) :
    ∀ s : RunState, (∀ x ∈ s.skippedRoot, x.2 = rootPath) →
      ∀ x ∈ (retentionLoop total latest maxKeep f s rest).skippedRoot,
        x.2 = rootPath := by
  induction rest with
  | nil => intro s hs; exact hs
  | cons y rest ih =>
    intro s hs
    obtain ⟨num, path⟩ := y
    simp only [retentionLoop]
    split
    · exact hs
    · split
      · exact ih _ hs
      · split
        · next hroot =>
          refine ih _ ?_
          intro x hx
          rcases List.mem_append.mp hx with hx | hx
          · exact hs x hx
          · rcases List.mem_singleton.mp hx with rfl
            exact hroot
        · split
          · exact ih _ hs
          · exact ih _ hs

/-- The number the resolver would extract from a single line: the parsed
first token for a marker line, nothing otherwise. -/
def markerLineNum (line : String) : Option Int :=
  if containsMarker line then pyIntParse (firstToken line) else none

/-- The scanning loop returns the first line (in scan order) that both
carries the marker and has a parseable first token. -/
theorem scanLines_eq_head_filterMap (ls : List String) :
    scanLines ls = (ls.filterMap markerLineNum).head? := by
  induction ls with
  | nil => rfl
  | cons line rest ih =>
    by_cases hm : containsMarker line = true
    · cases hp : pyIntParse (firstToken line) with
      | none => simp [scanLines, hm, List.filterMap_cons, markerLineNum, hp, ih]
      | some n => simp [scanLines, hm, List.filterMap_cons, markerLineNum, hp]
    · simp [scanLines, hm, List.filterMap_cons, markerLineNum, ih]

/-- Membership characterisation of the enumerator output. -/
theorem get_snapshots_mem (path : PosixPath) (children : List DirEntry)
    (n : Int) (q : PosixPath) :
    (n, q) ∈ get_snapshots path children
      ↔ ∃ c, c ∈ children ∧ c.isDir = true ∧ pyIntParse c.name = some n
          ∧ q = path.joinpath c.name := by
  unfold get_snapshots
  rw [List.mem_filterMap]
  constructor
  · rintro ⟨c, hc, heq⟩
    by_cases hd : c.isDir = true
    · rw [if_pos hd] at heq
      rcases Option.map_eq_some'.mp heq with ⟨m, hm, hpair⟩
      refine ⟨c, hc, hd, ?_, ?_⟩
      · rw [hm]
        exact congrArg some (congrArg Prod.fst hpair.symm).symm
      · exact (congrArg Prod.snd hpair).symm
    · rw [if_neg hd] at heq
      exact absurd heq (Option.noConfusion)
  · rintro ⟨c, hc, hd, hp, hq⟩
    refine ⟨c, hc, ?_⟩
    rw [if_pos hd, hp, hq]
    rfl

/-- A join with a relative name keeps the absoluteness flag. -/
theorem joinpath_absolute (p : PosixPath) (name : String) :
    (p.joinpath name).absolute = p.absolute := rfl

/-- When the working directory is absolute, `absolute()` always yields an
absolute path. -/
theorem absolutize_absolute (cwd p : PosixPath) (h : cwd.absolute = true) :
    (PosixPath.absolutize cwd p).absolute = true := by
  unfold PosixPath.absolutize
  split
  · next hp => exact hp
  · exact h

/-- An absolute path passes the assertion at the top of `delete_snapshot`:
whatever the stage outcomes, the call never escapes with `AssertionError`. -/
theorem delete_snapshot_no_assert (q : PosixPath) (h : q.absolute = true)
    (volRC : Int) (rmtreeErr : Option String) :
    (delete_snapshot q volRC rmtreeErr).result
      ≠ Except.error PyError.assertionError := by
  unfold delete_snapshot
  rw [if_neg (by simp [h])]
  simp only [log_external_output]
  split
  · simp
  · cases rmtreeErr <;> simp

/-! ## Claim theorems -/

/-- Claim C1 (code bug evaluation): on the specified scenario — snapshots
1..5, latest marker 5, maxKeep 2, all deletions succeeding — the code deletes
snapshots 1, 2, 3 and 4, keeping only the latest snapshot, so only one
non-excluded snapshot remains although min(maxKeep, totalDiscovered) = 2 and
the claim expects exactly 1, 2, 3 deleted.  The break condition compares the
constant total count against a counter that is always 0. -/
theorem C1_retention_minimum_keep_eval :
    (runRetention [exSnap 1, exSnap 2, exSnap 3, exSnap 4, exSnap 5]
        (some 5) 2 (fun _ => true)).deleted.map Prod.fst = [1, 2, 3, 4]
    ∧ (runRetention [exSnap 1, exSnap 2, exSnap 3, exSnap 4, exSnap 5]
        (some 5) 2 (fun _ => true)).delete_count = 4 := by decide

/-- Claim C2 (code bug evaluation): with a single snapshot, maxKeep 0 and a
failing deletion, the attempt is not recorded (`delete_attempts` stays 0
because the loop only ever assigns it 0) and the final exit check
`delete_attempts > delete_count` is false, so the process exits 0 even though
a deletion attempt did not succeed. -/
theorem C2_exit_policy_eval :
    (runRetention [exSnap 1] none 0 (fun _ => false)).attempted.map Prod.fst
        = [1]
    ∧ (runRetention [exSnap 1] none 0 (fun _ => false)).delete_count = 0
    ∧ (runRetention [exSnap 1] none 0 (fun _ => false)).delete_attempts = 0
    ∧ exitNonZero (runRetention [exSnap 1] none 0 (fun _ => false))
        = false := by decide

/-- Claim C3: for every snapshot set, when maxKeep is positive no snapshot
numbered like the latest marker is ever deleted, and when maxKeep is 0 the
latest-marked snapshot is treated exactly like every other snapshot (the run
with the marker equals the run with no marker at all). -/
theorem C3_latest_marker_protection (snapshots : List (Int × PosixPath))
    (L maxKeep : Int) (f : Int × PosixPath → Bool) :
    (0 < maxKeep →
      ∀ x ∈ (runRetention snapshots (some L) maxKeep f).deleted, x.1 ≠ L)
    ∧ runRetention snapshots (some L) 0 f
        = runRetention snapshots none 0 f := by
  constructor
  · intro hK x hx
    exact retentionLoop_deleted_ne_latest snapshots.length L maxKeep f hK
      (sortByNum snapshots) initState
      (fun y hy => absurd hy (List.not_mem_nil y)) x hx
  · exact retentionLoop_zero_keep_latest_irrelevant snapshots.length L f
      (sortByNum snapshots) initState

/-- Witness for C3: snapshot 5 carrying the latest marker survives a run
with maxKeep 1. -/
theorem C3_latest_marker_protection_w :
    exSnap 5 ∉ (runRetention [exSnap 5] (some 5) 1 (fun _ => true)).deleted :=
  fun h =>
    (C3_latest_marker_protection [exSnap 5] 5 1 (fun _ => true)).1
      (by decide) _ h rfl

/-- Claim C4 counterexample: with snapshots 1, 2, 3, no marker and maxKeep 2,
the source loop processes all three candidates (its break compares the
constant `len(snapshots)`), whereas a loop breaking on the count of snapshots
not yet visited — the claim wording — would stop after the first candidate:
the threshold is already satisfied before snapshot 2, yet snapshots 2 and 3
are still processed. -/
theorem C4_break_condition_cex :
    (runRetention [exSnap 1, exSnap 2, exSnap 3] none 2
        (fun _ => true)).attempted.map Prod.fst = [1, 2, 3]
    ∧ (runRetentionClaimC4 [exSnap 1, exSnap 2, exSnap 3] none 2
        (fun _ => true)).attempted.map Prod.fst = [1] := by decide

/-- Claim C4 as amended: the loop stops iterating exactly when
`(totalDiscovered - deleteAttempts) <= maxKeep`, where `totalDiscovered` is
the fixed total number of discovered snapshots: once the threshold holds at a
check the loop returns its state unchanged, and while it fails on a
non-empty remainder another snapshot is visited. -/
theorem C4_break_condition_amended (total : Nat) (latest : Option Int)
    (maxKeep : Int) (f : Int × PosixPath → Bool) (s : RunState)
    (rest : List (Int × PosixPath)) :
    ((total : Int) - (s.delete_attempts : Int) ≤ maxKeep →
      retentionLoop total latest maxKeep f s rest = s)
    ∧ (rest ≠ [] → maxKeep < (total : Int) - (s.delete_attempts : Int) →
      s.visited.length
        < (retentionLoop total latest maxKeep f s rest).visited.length) := by
  constructor
  · intro hle
    cases rest with
    | nil => rfl
    | cons y rest =>
      obtain ⟨num, path⟩ := y
      simp only [retentionLoop]
      rw [if_pos hle]
  · intro hne hgt
    cases rest with
    | nil => exact absurd rfl hne
    | cons y rest =>
      obtain ⟨num, path⟩ := y
      simp only [retentionLoop]
      rw [if_neg (not_le.mpr hgt)]
      split
      · exact lt_of_lt_of_le (by simp)
          (retentionLoop_visited_le total latest maxKeep f rest _)
      · split
        · exact lt_of_lt_of_le (by simp)
            (retentionLoop_visited_le total latest maxKeep f rest _)
        · split
          · exact lt_of_lt_of_le (by simp)
              (retentionLoop_visited_le total latest maxKeep f rest _)
          · exact lt_of_lt_of_le (by simp)
              (retentionLoop_visited_le total latest maxKeep f rest _)

/-- Witness for the amended C4: with one snapshot and total 1 at most
maxKeep 5, the loop stops immediately; with three snapshots and maxKeep 2 it
visits at least one. -/
theorem C4_break_condition_amended_w :
    retentionLoop 1 none 5 (fun _ => true) initState [exSnap 1] = initState
    ∧ initState.visited.length
        < (retentionLoop 3 none 2 (fun _ => true) initState
            [exSnap 1, exSnap 2, exSnap 3]).visited.length :=
  ⟨(C4_break_condition_amended 1 none 5 (fun _ => true) initState
      [exSnap 1]).1 (by decide),
   (C4_break_condition_amended 3 none 2 (fun _ => true) initState
      [exSnap 1, exSnap 2, exSnap 3]).2 (by decide) (by decide)⟩

/-- Claim C5 counterexample: when the newest marker line has an unparseable
first token but an older marker line parses, the resolver returns the older
number instead of absent: the `except: pass` falls through to the next
(earlier) line of the reversed scan. -/
theorem C5_parse_fallback_cex :
    get_latest_snapshot_num
        ["7 latest incremental backup", "x latest incremental backup"]
      = some 7 := by decide

/-- Claim C5 as amended: the resolver scans lines from the last line backward
and returns the integer parsed from the first token of the newest line that
both contains the marker text and has a parseable first token; it returns
absent exactly when no marker line has a parseable first token. -/
theorem C5_latest_resolver_amended (stdoutLines : List String) :
    get_latest_snapshot_num stdoutLines
      = (stdoutLines.reverse.filterMap markerLineNum).head? :=
  scanLines_eq_head_filterMap stdoutLines.reverse

/-- Claim C6 (code bug evaluation): when the volume-removal stage reports a
non-zero status, the deleter does skip the directory-removal stage, but it
escapes with `AttributeError` instead of logging captured output and
returning failure: the subprocess was started without `capture_output`, so
both streams are `None` and `log_external_output` calls `.strip()` on
`None`.  When both stages succeed it returns success, and a
directory-removal error yields failure with both stages run. -/
theorem C6_delete_snapshot_eval :
    delete_snapshot exRoot 1 none
      = { result := Except.error PyError.attributeError
          command := ["btrfs subvolume delete", "/backups/cfg/subvolume"]
          volumeStageRun := true
          rmtreeAttempted := false }
    ∧ delete_snapshot exRoot 0 none
      = { result := Except.ok true
          command := ["btrfs subvolume delete", "/backups/cfg/subvolume"]
          volumeStageRun := true
          rmtreeAttempted := true }
    ∧ delete_snapshot exRoot 0 (some "device busy")
      = { result := Except.ok false
          command := ["btrfs subvolume delete", "/backups/cfg/subvolume"]
          volumeStageRun := true
          rmtreeAttempted := true } := by decide

/-- Claim C7 counterexample: a directory child named `-1` parses under
Python `int` and is emitted as a snapshot with the negative number -1,
contradicting the claim that only names parsing as non-negative integers are
emitted and every emitted number is non-negative. -/
theorem C7_negative_number_cex :
    get_snapshots exRoot [⟨"-1", true⟩]
      = [((-1 : Int), exRoot.joinpath "-1")]
    ∧ ((-1 : Int) < 0) := by decide

/-- Claim C7 as amended: the enumerator emits a snapshot exactly for those
immediate children that are directories and whose names parse under Python
`int` — which permits an optional sign, so the emitted number may be
negative; non-directory and unparseable children are skipped. -/
theorem C7_enumerator_amended (path : PosixPath) (children : List DirEntry)
    (n : Int) (q : PosixPath) :
    (n, q) ∈ get_snapshots path children
      ↔ ∃ c, c ∈ children ∧ c.isDir = true ∧ pyIntParse c.name = some n
          ∧ q = path.joinpath c.name :=
  get_snapshots_mem path children n q

/-- Witness for the amended C7: a directory child named `7` is emitted. -/
theorem C7_enumerator_amended_w :
    ((7 : Int), exRoot.joinpath "7") ∈ get_snapshots exRoot [⟨"7", true⟩] :=
  (C7_enumerator_amended exRoot [⟨"7", true⟩] 7 (exRoot.joinpath "7")).mpr
    ⟨⟨"7", true⟩, by decide, rfl, by decide, rfl⟩

/-- Path `/..`, which resolves canonically to the filesystem root but is not
syntactically equal to it. -/
def dotdotPath : PosixPath := ⟨true, [".."]⟩

/-- Claim C8 counterexample: a snapshot at path `/..` — whose resolution to
an absolute canonical path is the filesystem root — is passed to the deleter
by the engine: the guard compares the unresolved path against
`PosixPath("/")` only, and `/..` differs syntactically from `/`. -/
theorem C8_root_guard_cex :
    (1, dotdotPath)
        ∈ (runRetention [(1, dotdotPath)] none 0 (fun _ => true)).attempted
    ∧ resolveCanonical dotdotPath = rootPath
    ∧ dotdotPath ≠ rootPath := by decide

/-- Claim C8 as amended: for every snapshot set and every maxKeep, the
engine never invokes the deleter on a snapshot whose path is syntactically
equal to the filesystem root `/`, and every snapshot recorded as
skipped-for-root indeed has that root path; no resolution to a canonical
form is performed. -/
theorem C8_root_guard_amended (snapshots : List (Int × PosixPath))
    (latest : Option Int) (maxKeep : Int) (f : Int × PosixPath → Bool) :
    (∀ x ∈ (runRetention snapshots latest maxKeep f).attempted,
        x.2 ≠ rootPath)
    ∧ (∀ x ∈ (runRetention snapshots latest maxKeep f).skippedRoot,
        x.2 = rootPath) := by
  constructor
  · intro x hx
    exact retentionLoop_attempted_ne_root snapshots.length latest maxKeep f
      (sortByNum snapshots) initState
      (fun y hy => absurd hy (List.not_mem_nil y)) x hx
  · intro x hx
    exact retentionLoop_skippedRoot_is_root snapshots.length latest maxKeep f
      (sortByNum snapshots) initState
      (fun y hy => absurd hy (List.not_mem_nil y)) x hx

/-- Witness for the amended C8: a snapshot whose path is the root is never
passed to the deleter, even with maxKeep 0. -/
theorem C8_root_guard_amended_w :
    ((3 : Int), rootPath)
      ∉ (runRetention [((3 : Int), rootPath)] none 0
          (fun _ => true)).attempted :=
  fun h =>
    (C8_root_guard_amended [((3 : Int), rootPath)] none 0 (fun _ => true)).1
      _ h rfl

/-- Claim C9: for every snapshot set, marker, maxKeep and sequence of
deletion outcomes, the final `delete_attempts` is 0 — the counter is only
ever initialised or reset to 0, never incremented — so the exit check
`delete_attempts > delete_count` never fires and the retention loop never
produces a non-zero exit status for failed deletions. -/
theorem C9_attempts_counter_dead (snapshots : List (Int × PosixPath))
    (latest : Option Int) (maxKeep : Int) (f : Int × PosixPath → Bool) :
    (runRetention snapshots latest maxKeep f).delete_attempts = 0
    ∧ exitNonZero (runRetention snapshots latest maxKeep f) = false := by
  have h : (runRetention snapshots latest maxKeep f).delete_attempts = 0 :=
    retentionLoop_attempts_zero snapshots.length latest maxKeep f
      (sortByNum snapshots) initState rfl
  refine ⟨h, ?_⟩
  unfold exitNonZero
  rw [h]
  simp

/-- Claim C10: whenever the working directory is absolute (as the operating
system guarantees), the snapshot root returned by `get_snapshot_root_path`
is absolute, every snapshot enumerated beneath it has an absolute path, and
therefore the absoluteness assertion at the top of `delete_snapshot` cannot
fail for any path reaching it through the main flow, whatever the stage
outcomes. -/
theorem C10_flow_paths_absolute (remote config : String) (cwd : PosixPath)
    (children : List DirEntry) (h : cwd.absolute = true) :
    (get_snapshot_root_path remote config cwd).absolute = true
    ∧ ∀ x ∈ get_snapshots (get_snapshot_root_path remote config cwd) children,
        x.2.absolute = true
        ∧ ∀ (volRC : Int) (rmtreeErr : Option String),
            (delete_snapshot x.2 volRC rmtreeErr).result
              ≠ Except.error PyError.assertionError := by
  have hroot : (get_snapshot_root_path remote config cwd).absolute = true :=
    absolutize_absolute cwd _ h
  refine ⟨hroot, ?_⟩
  rintro ⟨n, q⟩ hx
  rcases (get_snapshots_mem _ children n q).mp hx with ⟨c, _, _, _, hq⟩
  have habs : q.absolute = true := by
    rw [hq, joinpath_absolute]
    exact hroot
  exact ⟨habs, fun volRC rmtreeErr =>
    delete_snapshot_no_assert q habs volRC rmtreeErr⟩

/-- Witness for C10: with the absolute working directory `/home`, the
computed snapshot root `/backups/cfg` is absolute. -/
theorem C10_flow_paths_absolute_w :
    (⟨true, ["home"]⟩ : PosixPath).absolute = true
    ∧ (get_snapshot_root_path "/backups" "cfg" ⟨true, ["home"]⟩).absolute
        = true :=
  ⟨by decide,
   (C10_flow_paths_absolute "/backups" "cfg" ⟨true, ["home"]⟩ [⟨"1", true⟩]
      (by decide)).1⟩

end SnapSyncCleanup
